import Mathlib

/-
Verification development for the Fleet_Map repository.

The JavaScript sources are shallowly embedded in Lean:
JS numbers are modelled as exact rationals (ℚ) except for the Haversine
distance computation, which is transcendental and modelled over ℝ.
JS `undefined`-propagation and thrown TypeErrors are modelled with Option
(`none` = the computation throws / aborts).
-/

namespace FleetMap


/-! ## MovementPlanner (backend/RouteLogic.js) -/

/-- Embeds `interpolateCoordinates(start, end, progress)` from RouteLogic.js:
linear interpolation of a `[lng, lat]` pair.  Pairs are `(lng, lat)`. -/
def interpolateCoordinates (start finish : ℚ × ℚ) (progress : ℚ) : ℚ × ℚ :=
  (start.1 + (finish.1 - start.1) * progress,
   start.2 + (finish.2 - start.2) * progress)

/-- JS array indexing `arr[i]` with a possibly negative index:
`undefined` (here `none`) when out of range. -/
def jsGet (l : List (ℚ × ℚ)) (i : ℤ) : Option (ℚ × ℚ) :=
  if _h : 0 ≤ i then l[i.toNat]? else none

/-- The body of the `for` loop of `processRouteForMovement` at iteration `i`
(RouteLogic.js lines 50-66).  `none` models the JS executions that throw:
when `totalPoints = 1` the JS expression `progress = i / (totalPoints - 1)`
is `0/0 = NaN`, `coordIndex` is `NaN`, `NaN === NaN` is false, and the code
dereferences `routeCoordinates[NaN][0]` (a TypeError); likewise `none` when
an interpolation endpoint is an out-of-range (undefined) coordinate. -/
def movementPointAt (coords : List (ℚ × ℚ)) (totalPoints : ℕ) (i : ℕ) :
    Option (ℚ × ℚ) :=
  if totalPoints = 1 then none
  else
    let progress : ℚ := (i : ℚ) / ((totalPoints : ℚ) - 1)
    let coordIndex : ℤ := ⌊progress * ((coords.length : ℚ) - 1)⌋
    let nextCoordIndex : ℤ := min (coordIndex + 1) ((coords.length : ℤ) - 1)
    if coordIndex = nextCoordIndex then jsGet coords coordIndex
    else
      let localProgress : ℚ :=
        progress * ((coords.length : ℚ) - 1) - (coordIndex : ℚ)
      match jsGet coords coordIndex, jsGet coords nextCoordIndex with
      | some s, some e => some (interpolateCoordinates s e localProgress)
      | _, _ => none

/-- Sequences a list of optional values, aborting at the first `none`
(models a thrown exception aborting the JS loop). -/
def optList {α : Type} : List (Option α) → Option (List α)
  | [] => some []
  | none :: _ => none
  | some a :: rest => (optList rest).map (fun r => a :: r)

/-- Embeds `processRouteForMovement(routeData)` from RouteLogic.js, as a function of
the route geometry `coords` (`routeData.features[0].geometry.coordinates`)
and the route duration in seconds
(`routeData.features[0].properties.summary.duration`).
`totalPoints = Math.max(Math.ceil(duration), coords.length)`; the loop pushes
one point per iteration. -/
def processRouteForMovement (coords : List (ℚ × ℚ)) (duration : ℚ) :
    Option (List (ℚ × ℚ)) :=
  let totalDurationSeconds : ℤ := ⌈duration⌉
  let totalPoints : ℕ := (max totalDurationSeconds (coords.length : ℤ)).toNat
  optList ((List.range totalPoints).map (movementPointAt coords totalPoints))

/-! ## StationLocator: even-spacing selection
(`selectEvenlySpacedStations`, RouteChargingLogic.js) -/

/-- Embeds `selectEvenlySpacedStations(stations, maxStations)`: when more than
`maxStations` stations are available, pick `maxStations` of them at input
indices `i * floor(N / maxStations)` clamped to `N - 1`. -/
def selectEvenlySpacedStations {α : Type} (stations : List α) (maxStations : ℕ) :
    List α :=
  if h : stations.length ≤ maxStations then stations
  else
    let totalStations := stations.length
    let spacing := totalStations / maxStations
    (List.range maxStations).map (fun i =>
      stations.get ⟨min (i * spacing) (totalStations - 1), by
        have h1 : min (i * spacing) (totalStations - 1) ≤ totalStations - 1 :=
          min_le_right _ _
        omega⟩)

/-! ## NavigationSessionManager (backend/server.js)

The session table `activeNavigations` is a JS `Map` (`userId → navigation`);
a JS `Map` holds at most one value per key, so it is modelled as a function
`String → Option Navigation` — the "at most one session per vehicle"
invariant is structural in this model.  The Mongo collections `Route` and
`Fleet` are modelled as the `routes`/`fleets` fields of `ServerState`;
only the fields the navigation engine reads or writes are modelled.
Timestamps (`new Date()`) are modelled by a `now : ℕ` parameter. -/

/-- The fields of a stored route document used by the navigation engine.
`coords` is `features[0].geometry.coordinates` and `duration` is
`features[0].properties.summary.duration`. -/
structure RouteDoc where
  userId : String
  routeName : String
  coords : List (ℚ × ℚ)
  duration : ℚ
  status : String
  isActive : Bool
deriving DecidableEq

/-- The part of a `Fleet` document the tick writes
(`location.coordinates`). -/
structure FleetDoc where
  coordinates : Option (ℚ × ℚ)
deriving DecidableEq

inductive NavStatus where
  | active
  | paused
deriving DecidableEq

/-- Which handler installed the currently scheduled `setInterval` callback.
`none` interval = no schedule (paused). -/
inductive TickKind where
  | fromStart
  | fromResume
deriving DecidableEq

/-- The in-memory `navigation` object created by `/startNavigation`. -/
structure Navigation where
  userId : String
  routeId : String
  routeName : String
  movementPoints : List (ℚ × ℚ)
  currentIndex : ℕ
  currentPosition : Option (ℚ × ℚ)
  status : NavStatus
  startTime : ℕ
  interval : Option TickKind
deriving DecidableEq

/-- The mutable state of the navigation server process. -/
structure ServerState where
  activeNavigations : String → Option Navigation
  routes : String → Option RouteDoc
  fleets : String → Option FleetDoc

/-- Socket.io addressing: `io.to(userId)` or `io.to('fleet-manager')`. -/
inductive Channel where
  | vehicle (userId : String)
  | fleetManager
deriving DecidableEq

/-- The event payloads emitted by the navigation engine (field sets as in
server.js). -/
inductive Event where
  | locationUpdate (routeId routeName : String) (position : Option (ℚ × ℚ))
      (progress : ℚ) (currentIndex totalPoints estimatedTimeRemaining : ℕ)
  | liveLocationUpdate (userId routeId routeName : String)
      (position : Option (ℚ × ℚ)) (progress : ℚ) (timestamp : ℕ)
  | navigationCompleted (routeId routeName message : String)
  | routeCompleted (userId routeId routeName : String) (completedAt : ℕ)
  | navigationStopped (routeId routeName : String)
  | routeStopped (userId routeId routeName : String) (stoppedAt : ℕ)
deriving DecidableEq

/-- HTTP responses of the navigation endpoints (status distinctions only). -/
inductive NavResponse where
  | conflict
  | routeNotFound
  | started (routeId routeName : String) (totalPoints : ℕ)
  | serverError
  | noActiveNavigation
  | pauseOk (routeId : String)
  | resumeOk (routeId : String)
  | stopOk (routeId : String)
deriving DecidableEq

/-- Point update of the session table (`Map.set` / `Map.delete`). -/
def setNav (t : String → Option Navigation) (u : String) (v : Option Navigation) :
    String → Option Navigation :=
  fun x => if x = u then v else t x

/-- Embeds `Route.findByIdAndUpdate(routeId, { status: 'dead', isActive: false })`:
a no-op when the route does not exist. -/
def markRouteDead (routes : String → Option RouteDoc) (rid : String) :
    String → Option RouteDoc :=
  fun r => if r = rid then (routes r).map (fun d => { d with status := "dead", isActive := false })
           else routes r

/-- Embeds `Route.findByIdAndUpdate(routeId, { status: 'alive', isActive: true })`. -/
def markRouteAlive (routes : String → Option RouteDoc) (rid : String) :
    String → Option RouteDoc :=
  fun r => if r = rid then (routes r).map (fun d => { d with status := "alive", isActive := true })
           else routes r

/-- Embeds `Fleet.findOneAndUpdate({_id: userId}, {$set: {'location.coordinates': …}},
{upsert: false})`: updates the stored coordinates when the document exists,
no-op otherwise. -/
def updateFleetCoordinates (fleets : String → Option FleetDoc) (u : String)
    (pos : Option (ℚ × ℚ)) : String → Option FleetDoc :=
  fun v => if v = u then (fleets v).map (fun _ => { coordinates := pos }) else fleets v

/-- The `setInterval` callback installed by `/startNavigation`
(server.js lines 297-408).  `fleetThrows` selects the `catch` path (the
`Fleet.findOneAndUpdate` await throws); in that path the two events are
still emitted with identical payloads and `currentIndex` is still
incremented.  Socket emits are fire-and-forget and modelled as non-failing. -/
def tickStartBody (st : ServerState) (u : String) (fleetThrows : Bool) (now : ℕ) :
    ServerState × List (Channel × Event) :=
  match st.activeNavigations u with
  | none => (st, [])
  | some nav =>
    if nav.movementPoints.length ≤ nav.currentIndex then
      ({ st with
          activeNavigations := setNav st.activeNavigations u none,
          routes := markRouteDead st.routes nav.routeId },
       [(Channel.vehicle u, Event.navigationCompleted nav.routeId nav.routeName
           ("Navigation completed for " ++ nav.routeName ++ "!")),
        (Channel.fleetManager, Event.routeCompleted u nav.routeId nav.routeName now)])
    else
      let currentPosition := nav.movementPoints[nav.currentIndex]?
      let progress : ℚ := (nav.currentIndex : ℚ) / (nav.movementPoints.length : ℚ) * 100
      let remainingPoints := nav.movementPoints.length - nav.currentIndex
      let nav2 := { nav with currentPosition := currentPosition,
                             currentIndex := nav.currentIndex + 1 }
      ({ st with
          activeNavigations := setNav st.activeNavigations u (some nav2),
          fleets := if fleetThrows then st.fleets
                    else updateFleetCoordinates st.fleets u currentPosition },
       [(Channel.vehicle u, Event.locationUpdate nav.routeId nav.routeName
           currentPosition progress nav.currentIndex nav.movementPoints.length
           remainingPoints),
        (Channel.fleetManager, Event.liveLocationUpdate u nav.routeId nav.routeName
           currentPosition progress now)])

/-- The `setInterval` callback installed by `/resumeNavigation`
(server.js lines 575-634).  Unlike `tickStartBody` it contains no
`Fleet.findOneAndUpdate` call at all. -/
def tickResumeBody (st : ServerState) (u : String) (now : ℕ) :
    ServerState × List (Channel × Event) :=
  match st.activeNavigations u with
  | none => (st, [])
  | some nav =>
    if nav.movementPoints.length ≤ nav.currentIndex then
      ({ st with
          activeNavigations := setNav st.activeNavigations u none,
          routes := markRouteDead st.routes nav.routeId },
       [(Channel.vehicle u, Event.navigationCompleted nav.routeId nav.routeName
           ("Navigation completed for " ++ nav.routeName ++ "!")),
        (Channel.fleetManager, Event.routeCompleted u nav.routeId nav.routeName now)])
    else
      let currentPosition := nav.movementPoints[nav.currentIndex]?
      let progress : ℚ := (nav.currentIndex : ℚ) / (nav.movementPoints.length : ℚ) * 100
      let remainingPoints := nav.movementPoints.length - nav.currentIndex
      let nav2 := { nav with currentPosition := currentPosition,
                             currentIndex := nav.currentIndex + 1 }
      ({ st with
          activeNavigations := setNav st.activeNavigations u (some nav2) },
       [(Channel.vehicle u, Event.locationUpdate nav.routeId nav.routeName
           currentPosition progress nav.currentIndex nav.movementPoints.length
           remainingPoints),
        (Channel.fleetManager, Event.liveLocationUpdate u nav.routeId nav.routeName
           currentPosition progress now)])

/-- One firing of the recurring timer for vehicle `u`: a tick only fires
while a session with a live schedule exists (pause/stop/disconnect call
`clearInterval` before mutating the table), and runs whichever callback
body was installed. -/
def tickFire (st : ServerState) (u : String) (fleetThrows : Bool) (now : ℕ) :
    ServerState × List (Channel × Event) :=
  match st.activeNavigations u with
  | none => (st, [])
  | some nav =>
    match nav.interval with
    | none => (st, [])
    | some TickKind.fromStart => tickStartBody st u fleetThrows now
    | some TickKind.fromResume => tickResumeBody st u now

/-- The `/startNavigation` handler (server.js lines 265-424). -/
def startNavigation (st : ServerState) (u rid : String) (now : ℕ) :
    NavResponse × ServerState :=
  if (st.activeNavigations u).isSome then (NavResponse.conflict, st)
  else
    match st.routes rid with
    | none => (NavResponse.routeNotFound, st)
    | some route =>
      if route.userId ≠ u then (NavResponse.routeNotFound, st)
      else
        let st1 := { st with routes := markRouteAlive st.routes rid }
        match processRouteForMovement route.coords route.duration with
        | none => (NavResponse.serverError, st1)
        | some movementPoints =>
          let nav : Navigation :=
            { userId := u, routeId := rid, routeName := route.routeName,
              movementPoints := movementPoints, currentIndex := 0,
              currentPosition := movementPoints[0]?, status := NavStatus.active,
              startTime := now, interval := some TickKind.fromStart }
          (NavResponse.started rid route.routeName movementPoints.length,
           { st1 with activeNavigations := setNav st.activeNavigations u (some nav) })

/-- The `/stopNavigation` handler (server.js lines 429-470). -/
def stopNavigation (st : ServerState) (u : String) (now : ℕ) :
    NavResponse × ServerState × List (Channel × Event) :=
  match st.activeNavigations u with
  | none => (NavResponse.noActiveNavigation, st, [])
  | some nav =>
    (NavResponse.stopOk nav.routeId,
     { st with activeNavigations := setNav st.activeNavigations u none,
               routes := markRouteDead st.routes nav.routeId },
     [(Channel.vehicle u, Event.navigationStopped nav.routeId nav.routeName),
      (Channel.fleetManager, Event.routeStopped u nav.routeId nav.routeName now)])

/-- The `/pauseNavigation` handler (server.js lines 536-561): clears the
schedule and sets status `paused` only when a schedule is present; always
reports success when a session exists. -/
def pauseNavigation (st : ServerState) (u : String) :
    NavResponse × ServerState :=
  match st.activeNavigations u with
  | none => (NavResponse.noActiveNavigation, st)
  | some nav =>
    if nav.interval.isSome then
      let nav2 := { nav with interval := (none : Option TickKind),
                             status := NavStatus.paused }
      (NavResponse.pauseOk nav.routeId,
       { st with activeNavigations := setNav st.activeNavigations u (some nav2) })
    else (NavResponse.pauseOk nav.routeId, st)

/-- The `/resumeNavigation` handler (server.js lines 564-648): re-creates the
schedule (with the resume tick body) only when status is `paused`; always
reports success when a session exists. -/
def resumeNavigation (st : ServerState) (u : String) :
    NavResponse × ServerState :=
  match st.activeNavigations u with
  | none => (NavResponse.noActiveNavigation, st)
  | some nav =>
    if nav.status = NavStatus.paused then
      let nav2 := { nav with interval := some TickKind.fromResume,
                             status := NavStatus.active }
      (NavResponse.resumeOk nav.routeId,
       { st with activeNavigations := setNav st.activeNavigations u (some nav2) })
    else (NavResponse.resumeOk nav.routeId, st)

/-- The socket `disconnect` handler (server.js lines 47-57): when the socket
had joined as `socketUserId` and that user has a session, clear the
schedule and delete the session — with no route update and no emit. -/
def disconnectHandler (st : ServerState) (socketUserId : Option String) :
    ServerState × List (Channel × Event) :=
  match socketUserId with
  | none => (st, [])
  | some u =>
    match st.activeNavigations u with
    | none => (st, [])
    | some _ => ({ st with activeNavigations := setNav st.activeNavigations u none }, [])

/-- An example session mid-route: vehicle `A`, 3 movement points, index 1,
active, schedule installed by `start`. -/
def navA : Navigation :=
  { userId := "A", routeId := "R1", routeName := "Route 1",
    movementPoints := [((0 : ℚ), (0 : ℚ)), (0, 1), (0, 2)], currentIndex := 1,
    currentPosition := some (0, 0), status := NavStatus.active, startTime := 0,
    interval := some TickKind.fromStart }

/-- An example server state: session `navA` for vehicle `A`, its route
document, and a fleet document for `A`. -/
def stA : ServerState :=
  { activeNavigations := fun v => if v = "A" then some navA else none,
    routes := fun r => if r = "R1" then
        some { userId := "A", routeName := "Route 1",
               coords := [((0 : ℚ), (0 : ℚ)), (0, 2)], duration := 3,
               status := "alive", isActive := true }
      else none,
    fleets := fun v => if v = "A" then some { coordinates := some ((5 : ℚ), (5 : ℚ)) }
      else none }

/-- A session for vehicle `A` that has consumed all 3 movement points. -/
def navDone : Navigation :=
  { userId := "A", routeId := "R1", routeName := "Route 1",
    movementPoints := [((0 : ℚ), (0 : ℚ)), (0, 1), (0, 2)], currentIndex := 3,
    currentPosition := some (0, 2), status := NavStatus.active, startTime := 0,
    interval := some TickKind.fromStart }

/-- The state `stA` with the finished session `navDone` instead of `navA`. -/
def stDone : ServerState :=
  { stA with activeNavigations := fun v => if v = "A" then some navDone else none }

/-! ## StationLocator: Haversine projection and discovery strategies
(RouteChargingLogic.js)

JS floating-point trigonometry is modelled over ℝ; `Math.atan2(y, x)` is the
argument of the complex number `x + y·i`. -/

/-- Degrees to radians: `x * Math.PI / 180`. -/
noncomputable def deg2rad (x : ℚ) : ℝ := (x : ℝ) * Real.pi / 180

/-- Embeds `Math.atan2(y, x)`. -/
noncomputable def atan2 (y x : ℝ) : ℝ := Complex.arg ⟨x, y⟩

/-- Embeds `calculateDistance(coord1, coord2)`: Haversine great-circle distance in
kilometers with Earth radius `R = 6371`; coordinates are `(lng, lat)`. -/
noncomputable def calculateDistance (coord1 coord2 : ℚ × ℚ) : ℝ :=
  let lat1 := deg2rad coord1.2
  let lat2 := deg2rad coord2.2
  let deltaLat := deg2rad (coord2.2 - coord1.2)
  let deltaLng := deg2rad (coord2.1 - coord1.1)
  let a := Real.sin (deltaLat / 2) * Real.sin (deltaLat / 2) +
    Real.cos lat1 * Real.cos lat2 * Real.sin (deltaLng / 2) * Real.sin (deltaLng / 2)
  let c := 2 * atan2 (Real.sqrt a) (Real.sqrt (1 - a))
  6371 * c

/-- Embeds `Math.round(x * 10) / 10` — rounding to one decimal place
(`Math.round` is `⌊x + 1/2⌋`, as is Mathlib's `round`). -/
noncomputable def round1 (x : ℝ) : ℝ := ((round (x * 10) : ℤ) : ℝ) / 10

/-- The result record of `findNearestPointOnRoute`. -/
structure RoutePosition where
  index : ℕ
  coordinates : ℚ × ℚ
  distanceKm : ℝ

open Classical in
/-- The scan loop of `findNearestPointOnRoute`: `i` is the index of the head
of the remaining list, and the accumulator is
`some (minDistance, nearestIndex, nearestPoint)` (`none` = the initial
`minDistance = Infinity` state, which any first distance beats). -/
noncomputable def nearestAux (dist : (ℚ × ℚ) → (ℚ × ℚ) → ℝ) (stationCoords : ℚ × ℚ) :
    List (ℚ × ℚ) → ℕ → Option (ℝ × ℕ × (ℚ × ℚ)) → Option (ℝ × ℕ × (ℚ × ℚ))
  | [], _, acc => acc
  | c :: rest, i, acc =>
      let d := dist stationCoords c
      match acc with
      | none => nearestAux dist stationCoords rest (i + 1) (some (d, i, c))
      | some (m, bi, bp) =>
          if d < m then nearestAux dist stationCoords rest (i + 1) (some (d, i, c))
          else nearestAux dist stationCoords rest (i + 1) (some (m, bi, bp))

/-- Embeds `findNearestPointOnRoute(stationCoords, routeCoordinates)`: brute-force
scan retaining the minimal `calculateDistance` and its index; `distanceKm`
is rounded to 1 decimal.  For the empty route (never reached from the
locator, which requires ≥ 2 coordinates) the JS code would return
`index 0`, an undefined point and an `Infinity` distance; this model
returns a junk record there. -/
noncomputable def findNearestPointOnRoute (stationCoords : ℚ × ℚ)
    (coords : List (ℚ × ℚ)) : RoutePosition :=
  match nearestAux calculateDistance stationCoords coords 0 none with
  | none => { index := 0, coordinates := (0, 0), distanceKm := 0 }
  | some (m, bi, bp) => { index := bi, coordinates := bp, distanceKm := round1 m }

/-- A stored `ChargingStation` document as the locator reads it:
identifier, `location.coordinates`, and — in `$geoNear` aggregation
results only — the store-computed `distanceFromPoint` in meters (for
documents from the bounding-box `find`, the field is never read). -/
structure StationDoc where
  stationId : String
  coordinates : ℚ × ℚ
  distanceFromPoint : ℚ
deriving DecidableEq

/-- Axis-aligned bounding box (`calculateRouteBounds` result shape). -/
structure RouteBounds where
  minLng : ℚ
  maxLng : ℚ
  minLat : ℚ
  maxLat : ℚ
deriving DecidableEq

/-- The two MongoDB queries the locator issues, as an external collaborator:
`bboxQuery` is `ChargingStation.find({isOperational, coordinates within
bounds})` and `geoNear` is the `$geoNear` aggregation (operational stations
sorted by distance from the given point within the radius, with
`distanceFromPoint` filled in by the store). -/
structure StationStore where
  bboxQuery : RouteBounds → List StationDoc
  geoNear : (ℚ × ℚ) → ℚ → List StationDoc

/-- A `ChargingStation` enriched by the locator with its projection onto
the route (`routePosition`) and `distanceFromRouteKm`. -/
structure RouteStationMatch where
  station : StationDoc
  routePosition : RoutePosition
  distanceFromRouteKm : ℝ

/-- JS `Math.min/Math.max` fold of `calculateRouteBounds`; the JS code
starts from `±Infinity`, so for the nonempty routes that reach it the
result is the coordinate-wise minimum/maximum (the empty-route value here
is junk, as the locator never passes one). -/
def listMinQ : List ℚ → ℚ
  | [] => 0
  | x :: xs => xs.foldl min x

def listMaxQ : List ℚ → ℚ
  | [] => 0
  | x :: xs => xs.foldl max x

/-- Embeds `calculateRouteBounds(routeCoordinates)`. -/
def calculateRouteBounds (coords : List (ℚ × ℚ)) : RouteBounds :=
  { minLng := listMinQ (coords.map Prod.fst), maxLng := listMaxQ (coords.map Prod.fst),
    minLat := listMinQ (coords.map Prod.snd), maxLat := listMaxQ (coords.map Prod.snd) }

open Classical in
/-- Embeds `findStationsWithinRouteBuffer` (primary strategy): bounding box
expanded by `maxDistance / 111` degrees, store query capped at
`5 * maxStations`, per-candidate projection, true-distance filter, sort by
projected route index, even-spacing selection.  Store exceptions are not
modelled (the store is total). -/
noncomputable def findStationsWithinRouteBuffer (store : StationStore)
    (coords : List (ℚ × ℚ)) (maxDistance : ℚ) (maxStations : ℕ) :
    List RouteStationMatch :=
  let bounds := calculateRouteBounds coords
  let buffer := maxDistance / 111
  let expandedBounds : RouteBounds :=
    { minLng := bounds.minLng - buffer, maxLng := bounds.maxLng + buffer,
      minLat := bounds.minLat - buffer, maxLat := bounds.maxLat + buffer }
  let nearbyStations := (store.bboxQuery expandedBounds).take (maxStations * 5)
  if nearbyStations.length = 0 then []
  else
    let stationsWithDistance := nearbyStations.filterMap (fun station =>
      let routePosition := findNearestPointOnRoute station.coordinates coords
      if routePosition.distanceKm ≤ (maxDistance : ℝ) then
        some { station := station, routePosition := routePosition,
               distanceFromRouteKm := routePosition.distanceKm }
      else none)
    let sorted := stationsWithDistance.mergeSort
      (fun a b => a.routePosition.index ≤ b.routePosition.index)
    selectEvenlySpacedStations sorted maxStations

/-- Embeds `findStationsNearRoutePoints` (fallback strategy): sample every
`max(1, ⌊len/10⌋)`-th route coordinate, `$geoNear` per sample (capped at
10), deduplicate by `stationId` in first-seen order (the JS `Map`),
project each station onto the route, but set `distanceFromRouteKm` from
the store-reported `distanceFromPoint` (meters → km, rounded to 1
decimal); then sort by projected index and even-spacing-select. -/
noncomputable def findStationsNearRoutePoints (store : StationStore)
    (coords : List (ℚ × ℚ)) (maxDistance : ℚ) (maxStations : ℕ) :
    List RouteStationMatch :=
  let sampleInterval := max 1 (coords.length / 10)
  let samplePoints := ((coords.enum).filter
    (fun ic => ic.1 % sampleInterval = 0)).map Prod.snd
  let allStations := samplePoints.foldl (fun acc point =>
    ((store.geoNear point (maxDistance * 1000)).take 10).foldl (fun acc2 station =>
      if acc2.any (fun m => m.station.stationId = station.stationId) then acc2
      else acc2 ++ [{ station := station,
                      routePosition := findNearestPointOnRoute station.coordinates coords,
                      distanceFromRouteKm :=
                        round1 ((station.distanceFromPoint : ℝ) / 1000) }]) acc) []
  let sorted := allStations.mergeSort
    (fun a b => a.routePosition.index ≤ b.routePosition.index)
  selectEvenlySpacedStations sorted maxStations

/-- Embeds `findChargingStationsAlongRoute(routeCoordinates, maxDistance = 5,
maxStations = 4)`: fewer than 2 coordinates → `[]`; primary strategy, and
the fallback strategy whenever the primary yields no station (the
`catch`-triggered fall-through is subsumed: the store is modelled total). -/
noncomputable def findChargingStationsAlongRoute (store : StationStore)
    (coords : List (ℚ × ℚ)) (maxDistance : ℚ) (maxStations : ℕ) :
    List RouteStationMatch :=
  if coords.length < 2 then []
  else
    let stations := findStationsWithinRouteBuffer store coords maxDistance maxStations
    if 0 < stations.length then stations
    else findStationsNearRoutePoints store coords maxDistance maxStations

/-- A station document sitting exactly on the first route coordinate, which
the store reports (from a `$geoNear` sample) as 3000 m away. -/
def sCE : StationDoc :=
  { stationId := "s1", coordinates := ((0 : ℚ), (0 : ℚ)), distanceFromPoint := 3000 }

/-- The two-coordinate route `[[0,0],[10,0]]`. -/
def routeCE : List (ℚ × ℚ) := [((0 : ℚ), (0 : ℚ)), ((10 : ℚ), (0 : ℚ))]

/-- A store whose bounding-box query is empty (forcing the fallback
strategy) and whose `$geoNear` finds `sCE` near the sample point `(0,0)`. -/
def storeCE : StationStore :=
  { bboxQuery := fun _ => [],
    geoNear := fun p _ => if p = ((0 : ℚ), (0 : ℚ)) then [sCE] else [] }

/-- The match the fallback strategy produces for `sCE` on `routeCE`. -/
noncomputable def mCE : RouteStationMatch :=
  { station := sCE,
    routePosition := findNearestPointOnRoute sCE.coordinates routeCE,
    distanceFromRouteKm := round1 ((sCE.distanceFromPoint : ℝ) / 1000) }

/-- A store whose bounding-box query returns `sCE` (primary strategy). -/
def storeP : StationStore :=
  { bboxQuery := fun _ => [sCE], geoNear := fun _ _ => [] }

/-- The match the primary strategy produces for `sCE` on `routeCE`. -/
noncomputable def mP : RouteStationMatch :=
  { station := sCE,
    routePosition := findNearestPointOnRoute sCE.coordinates routeCE,
    distanceFromRouteKm := (findNearestPointOnRoute sCE.coordinates routeCE).distanceKm }

/-! ## Properties -/

lemma optList_eq_some_of_forall_isSome {α : Type} :
    ∀ l : List (Option α), (∀ x ∈ l, x.isSome) →
      ∃ r, optList l = some r ∧ r.length = l.length := by
  intro l
  induction l with
  | nil => intro _; exact ⟨[], rfl, rfl⟩
  | cons x xs ih =>
      intro h
      obtain ⟨a, rfl⟩ := Option.isSome_iff_exists.mp (h x (List.mem_cons_self x xs))
      obtain ⟨r, hr, hlen⟩ := ih (fun y hy => h y (List.mem_cons_of_mem _ hy))
      exact ⟨a :: r, by simp [optList, hr], by simp [hlen]⟩

lemma optList_replicate {α : Type} (n : ℕ) (a : α) :
    optList (List.replicate n (some a)) = some (List.replicate n a) := by
  induction n with
  | zero => rfl
  | succ k ih => simp [List.replicate_succ, optList, ih]

lemma optList_getElem? {α : Type} :
    ∀ (l : List (Option α)) (r : List α), optList l = some r →
      ∀ i : ℕ, l[i]? = (r[i]?).map some := by
  intro l
  induction l with
  | nil =>
      intro r hr i
      simp only [optList] at hr
      cases hr
      simp
  | cons x xs ih =>
      intro r hr i
      cases x with
      | none => simp [optList] at hr
      | some a =>
          simp only [optList, Option.map_eq_some'] at hr
          obtain ⟨r', hr', rfl⟩ := hr
          cases i with
          | zero => simp
          | succ j => simpa using ih r' hr' j

/-- Every loop iteration succeeds when the route has at least two points. -/
lemma movementPointAt_isSome (coords : List (ℚ × ℚ)) (tp i : ℕ)
    (hlen : 2 ≤ coords.length) (htp : coords.length ≤ tp) (hi : i < tp) :
    (movementPointAt coords tp i).isSome := by
  have htp2 : 2 ≤ tp := le_trans hlen htp
  have htp1 : tp ≠ 1 := by omega
  set L := coords.length with hL
  have hden : (0 : ℚ) < (tp : ℚ) - 1 := by
    have h2 : (2 : ℚ) ≤ (tp : ℚ) := by exact_mod_cast htp2
    linarith
  have hprog0 : 0 ≤ (i : ℚ) / ((tp : ℚ) - 1) := div_nonneg (by positivity) hden.le
  have hprog1 : (i : ℚ) / ((tp : ℚ) - 1) ≤ 1 := by
    rw [div_le_one hden]
    have h1 : ((i : ℚ) + 1) ≤ (tp : ℚ) := by exact_mod_cast hi
    linarith
  have hLq : (2 : ℚ) ≤ (L : ℚ) := by exact_mod_cast hlen
  have hx0 : 0 ≤ (i : ℚ) / ((tp : ℚ) - 1) * ((L : ℚ) - 1) :=
    mul_nonneg hprog0 (by linarith)
  have hx1 : (i : ℚ) / ((tp : ℚ) - 1) * ((L : ℚ) - 1) ≤ (L : ℚ) - 1 :=
    mul_le_of_le_one_left (by linarith) hprog1
  have hcI0 : 0 ≤ ⌊(i : ℚ) / ((tp : ℚ) - 1) * ((L : ℚ) - 1)⌋ := Int.floor_nonneg.2 hx0
  have hcI1 : ⌊(i : ℚ) / ((tp : ℚ) - 1) * ((L : ℚ) - 1)⌋ ≤ (L : ℤ) - 1 := by
    have hx1' : (i : ℚ) / ((tp : ℚ) - 1) * ((L : ℚ) - 1) ≤ (((L : ℤ) - 1 : ℤ) : ℚ) := by
      push_cast
      linarith
    have h := Int.floor_le_floor (α := ℚ) hx1'
    rwa [Int.floor_intCast] at h
  simp only [movementPointAt, if_neg htp1, ← hL]
  by_cases hEq : ⌊(i : ℚ) / ((tp : ℚ) - 1) * ((L : ℚ) - 1)⌋ = (L : ℤ) - 1
  · rw [if_pos (by omega)]
    have hlt : (⌊(i : ℚ) / ((tp : ℚ) - 1) * ((L : ℚ) - 1)⌋).toNat < L := by omega
    simp [jsGet, hcI0, List.getElem?_eq_getElem hlt]
  · rw [if_neg (by omega)]
    have hlt1 : (⌊(i : ℚ) / ((tp : ℚ) - 1) * ((L : ℚ) - 1)⌋).toNat < L := by omega
    have hmin : min (⌊(i : ℚ) / ((tp : ℚ) - 1) * ((L : ℚ) - 1)⌋ + 1) ((L : ℤ) - 1) =
        ⌊(i : ℚ) / ((tp : ℚ) - 1) * ((L : ℚ) - 1)⌋ + 1 := by omega
    have hlt2 : (⌊(i : ℚ) / ((tp : ℚ) - 1) * ((L : ℚ) - 1)⌋ + 1).toNat < L := by omega
    rw [hmin]
    simp [jsGet, hcI0, List.getElem?_eq_getElem hlt1, List.getElem?_eq_getElem hlt2,
      show (0 : ℤ) ≤ ⌊(i : ℚ) / ((tp : ℚ) - 1) * ((L : ℚ) - 1)⌋ + 1 by omega]

/-- For a route with at least two coordinates the planner succeeds and
produces exactly `max ⌈duration⌉ coords.length` points. -/
lemma processRouteForMovement_length (coords : List (ℚ × ℚ)) (d : ℚ)
    (hlen : 2 ≤ coords.length) :
    ∃ l, processRouteForMovement coords d = some l ∧
      l.length = (max ⌈d⌉ (coords.length : ℤ)).toNat := by
  have htp : coords.length ≤ (max ⌈d⌉ (coords.length : ℤ)).toNat := by
    have := le_max_right (⌈d⌉) ((coords.length : ℤ))
    omega
  obtain ⟨r, hr, hrl⟩ := optList_eq_some_of_forall_isSome
    ((List.range ((max ⌈d⌉ (coords.length : ℤ)).toNat)).map
      (movementPointAt coords ((max ⌈d⌉ (coords.length : ℤ)).toNat)))
    (by
      intro x hx
      obtain ⟨i, hi, rfl⟩ := List.mem_map.mp hx
      exact movementPointAt_isSome coords _ i hlen htp (List.mem_range.mp hi))
  exact ⟨r, hr, by simpa using hrl⟩

lemma movementPointAt_single (p : ℚ × ℚ) (tp i : ℕ) (h : tp ≠ 1) :
    movementPointAt [p] tp i = some p := by
  simp [movementPointAt, h, jsGet]

lemma processRouteForMovement_single (p : ℚ × ℚ) (d : ℚ) (h2 : 2 ≤ ⌈d⌉) :
    processRouteForMovement [p] d = some (List.replicate (⌈d⌉).toNat p) := by
  have hmax : (max ⌈d⌉ (([p] : List (ℚ × ℚ)).length : ℤ)).toNat = (⌈d⌉).toNat := by
    simp only [List.length_singleton]
    omega
  have hne : (⌈d⌉).toNat ≠ 1 := by omega
  simp only [processRouteForMovement, hmax]
  rw [List.map_congr_left (fun i _ => movementPointAt_single p (⌈d⌉).toNat i hne)]
  rw [List.map_const', List.length_range, optList_replicate]

lemma processRouteForMovement_single_none (p : ℚ × ℚ) (d : ℚ) (h : ⌈d⌉ ≤ 1) :
    processRouteForMovement [p] d = none := by
  have hmax : (max ⌈d⌉ (1 : ℤ)).toNat = 1 := by omega
  simp [processRouteForMovement, hmax, movementPointAt, optList]

lemma movementPointAt_nil_zero (tp : ℕ) : movementPointAt [] tp 0 = none := by
  rcases eq_or_ne tp 1 with rfl | h
  · simp [movementPointAt]
  · simp only [movementPointAt, if_neg h, List.length_nil]
    norm_num [jsGet]

lemma processRouteForMovement_nil_pos (d : ℚ) (h : 1 ≤ ⌈d⌉) :
    processRouteForMovement [] d = none := by
  have hmax : (max ⌈d⌉ ((([] : List (ℚ × ℚ)).length : ℤ))).toNat = (⌈d⌉).toNat := by
    simp only [List.length_nil]
    omega
  obtain ⟨k, hk⟩ : ∃ k, (⌈d⌉).toNat = k + 1 := ⟨(⌈d⌉).toNat - 1, by omega⟩
  simp only [processRouteForMovement, hmax, hk, List.range_succ_eq_map, List.map_cons,
    movementPointAt_nil_zero, optList]

lemma processRouteForMovement_nil_nonpos (d : ℚ) (h : ⌈d⌉ ≤ 0) :
    processRouteForMovement [] d = some [] := by
  have hmax : (max ⌈d⌉ (0 : ℤ)).toNat = 0 := by omega
  simp [processRouteForMovement, hmax, optList]

lemma processRouteForMovement_getElem (coords : List (ℚ × ℚ)) (d : ℚ)
    (l : List (ℚ × ℚ)) (hl : processRouteForMovement coords d = some l) (i : ℕ)
    (hi : i < (max ⌈d⌉ (coords.length : ℤ)).toNat) :
    l[i]? = movementPointAt coords ((max ⌈d⌉ (coords.length : ℤ)).toNat) i := by
  have h := optList_getElem? _ l (by simpa [processRouteForMovement] using hl) i
  rw [List.getElem?_map, List.getElem?_range hi] at h
  rcases hli : l[i]? with _ | v
  · rw [hli] at h
    simp at h
  · rw [hli] at h
    simp only [Option.map_some', Option.some.injEq] at h
    exact h.symm

lemma movementPointAt_scenario_zero :
    movementPointAt [((0 : ℚ), (0 : ℚ)), (0, 1)] 120 0 = some (0, 0) := by
  norm_num [movementPointAt, jsGet, interpolateCoordinates]

lemma movementPointAt_scenario_sixty :
    movementPointAt [((0 : ℚ), (0 : ℚ)), (0, 1)] 120 60 = some (0, 60 / 119) := by
  norm_num [movementPointAt, jsGet, interpolateCoordinates]

lemma movementPointAt_scenario_last :
    movementPointAt [((0 : ℚ), (0 : ℚ)), (0, 1)] 120 119 = some (0, 1) := by
  norm_num [movementPointAt, jsGet, interpolateCoordinates]

/-- C6: `processRouteForMovement` is a pure deterministic function (in this
embedding the same input always yields the same output); for a route with at
least 2 coordinates the result exists and its length is
`max ⌈duration⌉ coords.length`; and on the route `[[0,0],[0,1]]` with
duration 120 s it yields 120 points with point 0 = `[0,0]`,
point 119 = `[0,1]`, and point 60 = `[0, 60/119]`, which is within `0.001`
of `0.504`. -/
theorem movementPlanner_deterministic_length_scenario :
    (∀ (coords : List (ℚ × ℚ)) (d : ℚ) (l1 l2 : List (ℚ × ℚ)),
        processRouteForMovement coords d = some l1 →
        processRouteForMovement coords d = some l2 → l1 = l2) ∧
    (∀ (coords : List (ℚ × ℚ)) (d : ℚ), 2 ≤ coords.length →
        ∃ l, processRouteForMovement coords d = some l ∧
          l.length = (max ⌈d⌉ (coords.length : ℤ)).toNat) ∧
    (∃ l, processRouteForMovement [((0 : ℚ), (0 : ℚ)), (0, 1)] 120 = some l ∧
        l.length = 120 ∧ l[0]? = some (0, 0) ∧ l[119]? = some (0, 1) ∧
        l[60]? = some (0, 60 / 119) ∧ |(60 : ℚ) / 119 - 504 / 1000| < 1 / 1000) := by
  refine ⟨?_, ?_, ?_⟩
  · intro coords d l1 l2 h1 h2
    rw [h1] at h2
    exact (Option.some.injEq _ _ ▸ h2).symm ▸ rfl
  · exact fun coords d h => processRouteForMovement_length coords d h
  · obtain ⟨l, hl, hlen⟩ :=
      processRouteForMovement_length [((0 : ℚ), (0 : ℚ)), (0, 1)] 120 (by norm_num)
    have hmax : (max ⌈(120 : ℚ)⌉ ((([((0 : ℚ), (0 : ℚ)), (0, 1)] : List (ℚ × ℚ)).length : ℤ))).toNat = 120 := by
      rw [show ⌈(120 : ℚ)⌉ = (120 : ℤ) by norm_num]
      rfl
    refine ⟨l, hl, by rw [hlen, hmax], ?_, ?_, ?_,
      by rw [abs_lt]; constructor <;> norm_num⟩
    · rw [processRouteForMovement_getElem _ _ _ hl 0 (by rw [hmax]; norm_num), hmax]
      exact movementPointAt_scenario_zero
    · rw [processRouteForMovement_getElem _ _ _ hl 119 (by rw [hmax]; norm_num), hmax]
      exact movementPointAt_scenario_last
    · rw [processRouteForMovement_getElem _ _ _ hl 60 (by rw [hmax]; norm_num), hmax]
      exact movementPointAt_scenario_sixty

/-- Witness for C6: a concrete application of the universally quantified
parts, with every hypothesis discharged at the input. -/
theorem movementPlanner_deterministic_length_scenario_witness :
    (2 ≤ ([((0 : ℚ), (0 : ℚ)), (0, 1)] : List (ℚ × ℚ)).length) ∧
    (∃ l, processRouteForMovement [((0 : ℚ), (0 : ℚ)), (0, 1)] 7 = some l ∧
        l.length = (max ⌈(7 : ℚ)⌉ ((([((0 : ℚ), (0 : ℚ)), (0, 1)] : List (ℚ × ℚ)).length : ℤ))).toNat) ∧
    List.replicate (⌈(5 : ℚ)⌉).toNat ((0 : ℚ), (0 : ℚ)) =
      List.replicate (⌈(5 : ℚ)⌉).toNat ((0 : ℚ), (0 : ℚ)) :=
  ⟨by norm_num,
   movementPlanner_deterministic_length_scenario.2.1 _ 7 (by norm_num),
   movementPlanner_deterministic_length_scenario.1 [((0 : ℚ), (0 : ℚ))] 5 _ _
     (processRouteForMovement_single _ 5 (by norm_num))
     (processRouteForMovement_single _ 5 (by norm_num))⟩

/-- C7 counterexample: a route with fewer than 2 coordinates does NOT fail:
`processRouteForMovement` on the single-point route `[[0,0]]` with duration 3
successfully returns a movement-point sequence (the point repeated 3 times).
The code has no `EmptyRouteError` guard at all. -/
theorem singlePointRoute_returns_sequence :
    processRouteForMovement [((0 : ℚ), (0 : ℚ))] 3 = some [(0, 0), (0, 0), (0, 0)] := by
  have h := processRouteForMovement_single ((0 : ℚ), (0 : ℚ)) 3 (by norm_num)
  have h3 : (⌈(3 : ℚ)⌉).toNat = 3 := by
    rw [show ⌈(3 : ℚ)⌉ = (3 : ℤ) by norm_num]
    rfl
  rw [h3] at h
  simpa [List.replicate] using h

/-- C7 amended: `processRouteForMovement` performs no `EmptyRouteError` check
for routes with fewer than 2 coordinates.  With exactly one coordinate and
`⌈duration⌉ ≥ 2` it succeeds, returning the coordinate repeated
`⌈duration⌉` times; with one coordinate and `⌈duration⌉ ≤ 1` it throws a
TypeError (modelled by `none`); with zero coordinates it returns the empty
sequence when `⌈duration⌉ ≤ 0` and throws a TypeError otherwise. -/
theorem shortRoute_behavior :
    (∀ (p : ℚ × ℚ) (d : ℚ), 2 ≤ ⌈d⌉ →
        processRouteForMovement [p] d = some (List.replicate (⌈d⌉).toNat p)) ∧
    (∀ (p : ℚ × ℚ) (d : ℚ), ⌈d⌉ ≤ 1 → processRouteForMovement [p] d = none) ∧
    (∀ d : ℚ, ⌈d⌉ ≤ 0 → processRouteForMovement [] d = some []) ∧
    (∀ d : ℚ, 1 ≤ ⌈d⌉ → processRouteForMovement [] d = none) :=
  ⟨processRouteForMovement_single, processRouteForMovement_single_none,
   processRouteForMovement_nil_nonpos, processRouteForMovement_nil_pos⟩

/-- Witness for C7's amended theorem: each part applied at a concrete input. -/
theorem shortRoute_behavior_witness :
    processRouteForMovement [((1 : ℚ), (2 : ℚ))] 5 =
        some (List.replicate (⌈(5 : ℚ)⌉).toNat ((1 : ℚ), (2 : ℚ))) ∧
    processRouteForMovement [((1 : ℚ), (2 : ℚ))] 1 = none ∧
    processRouteForMovement ([] : List (ℚ × ℚ)) 0 = some [] ∧
    processRouteForMovement ([] : List (ℚ × ℚ)) 2 = none :=
  ⟨shortRoute_behavior.1 _ 5 (by norm_num),
   shortRoute_behavior.2.1 _ 1 (by norm_num),
   shortRoute_behavior.2.2.1 0 (by norm_num),
   shortRoute_behavior.2.2.2 2 (by norm_num)⟩

lemma selectEvenlySpacedStations_mem {α : Type} (stations : List α)
    (maxStations : ℕ) (x : α)
    (hx : x ∈ selectEvenlySpacedStations stations maxStations) : x ∈ stations := by
  unfold selectEvenlySpacedStations at hx
  split at hx
  · exact hx
  · obtain ⟨i, _, rfl⟩ := List.mem_map.mp hx
    exact List.get_mem stations _ _

/-- C8: even-spacing selection.  With `N ≤ K` the input is returned
unchanged; with `K < N` exactly `K` elements are returned, the element at
output position `i` being the input element at index
`min (i * (N / K)) (N - 1)` (ℕ-division is `floor`); on 12 position-sorted
matches with `K = 4` the elements at input indices 0, 3, 6, 9 are chosen. -/
theorem evenSpacing_selection :
    (∀ (α : Type) (l : List α) (k : ℕ), l.length ≤ k →
        selectEvenlySpacedStations l k = l) ∧
    (∀ (α : Type) (l : List α) (k : ℕ), k < l.length →
        (selectEvenlySpacedStations l k).length = k ∧
        ∀ i, i < k → (selectEvenlySpacedStations l k)[i]? =
          l[min (i * (l.length / k)) (l.length - 1)]?) ∧
    selectEvenlySpacedStations (List.range 12) 4 = [0, 3, 6, 9] := by
  refine ⟨?_, ?_, ?_⟩
  · intro α l k h
    simp [selectEvenlySpacedStations, h]
  · intro α l k h
    constructor
    · simp [selectEvenlySpacedStations, not_le.mpr h]
    · intro i hi
      have hnle : ¬ l.length ≤ k := not_le.mpr h
      simp only [selectEvenlySpacedStations, dif_neg hnle]
      rw [List.getElem?_map, List.getElem?_range hi]
      simp [List.getElem?_eq_getElem]
  · decide

/-- Witness for C8: both universally quantified parts applied to the
concrete 12-element scenario (and a short list for the `N ≤ K` part). -/
theorem evenSpacing_selection_witness :
    selectEvenlySpacedStations (List.range 3) 4 = List.range 3 ∧
    (selectEvenlySpacedStations (List.range 12) 4).length = 4 ∧
    (selectEvenlySpacedStations (List.range 12) 4)[1]? =
      (List.range 12)[min (1 * ((List.range 12).length / 4)) ((List.range 12).length - 1)]? :=
  ⟨evenSpacing_selection.1 ℕ (List.range 3) 4 (by decide),
   (evenSpacing_selection.2.1 ℕ (List.range 12) 4 (by decide)).1,
   (evenSpacing_selection.2.1 ℕ (List.range 12) 4 (by decide)).2 1 (by decide)⟩

/-- The advancing (non-completion) branch of the start-installed tick. -/
lemma tickStartBody_advance (st : ServerState) (u : String) (nav : Navigation)
    (ft : Bool) (now : ℕ) (hnav : st.activeNavigations u = some nav)
    (hlt : nav.currentIndex < nav.movementPoints.length) :
    ((tickStartBody st u ft now).1.activeNavigations u).map Navigation.currentIndex
        = some (nav.currentIndex + 1) ∧
    ((tickStartBody st u ft now).1.activeNavigations u).map Navigation.currentPosition
        = some (nav.movementPoints[nav.currentIndex]?) ∧
    (tickStartBody st u ft now).2 =
      [(Channel.vehicle u, Event.locationUpdate nav.routeId nav.routeName
          (nav.movementPoints[nav.currentIndex]?)
          ((nav.currentIndex : ℚ) / (nav.movementPoints.length : ℚ) * 100)
          nav.currentIndex nav.movementPoints.length
          (nav.movementPoints.length - nav.currentIndex)),
       (Channel.fleetManager, Event.liveLocationUpdate u nav.routeId nav.routeName
          (nav.movementPoints[nav.currentIndex]?)
          ((nav.currentIndex : ℚ) / (nav.movementPoints.length : ℚ) * 100) now)] := by
  have hnle : ¬ (nav.movementPoints.length ≤ nav.currentIndex) := not_le.mpr hlt
  refine ⟨?_, ?_, ?_⟩ <;> simp [tickStartBody, hnav, hnle, setNav]

/-- The advancing (non-completion) branch of the resume-installed tick. -/
lemma tickResumeBody_advance (st : ServerState) (u : String) (nav : Navigation)
    (now : ℕ) (hnav : st.activeNavigations u = some nav)
    (hlt : nav.currentIndex < nav.movementPoints.length) :
    ((tickResumeBody st u now).1.activeNavigations u).map Navigation.currentIndex
        = some (nav.currentIndex + 1) ∧
    ((tickResumeBody st u now).1.activeNavigations u).map Navigation.currentPosition
        = some (nav.movementPoints[nav.currentIndex]?) ∧
    (tickResumeBody st u now).2 =
      [(Channel.vehicle u, Event.locationUpdate nav.routeId nav.routeName
          (nav.movementPoints[nav.currentIndex]?)
          ((nav.currentIndex : ℚ) / (nav.movementPoints.length : ℚ) * 100)
          nav.currentIndex nav.movementPoints.length
          (nav.movementPoints.length - nav.currentIndex)),
       (Channel.fleetManager, Event.liveLocationUpdate u nav.routeId nav.routeName
          (nav.movementPoints[nav.currentIndex]?)
          ((nav.currentIndex : ℚ) / (nav.movementPoints.length : ℚ) * 100) now)] := by
  have hnle : ¬ (nav.movementPoints.length ≤ nav.currentIndex) := not_le.mpr hlt
  refine ⟨?_, ?_, ?_⟩ <;> simp [tickResumeBody, hnav, hnle, setNav]

/-- C1: the session table (a JS `Map`) holds at most one session per vehicle
— structural in this model, where the table is a function
`String → Option Navigation` — and `start(vehicleId, routeId)` while a
session exists returns the conflict error, leaves the whole state (hence
the table) unchanged, and leaves the existing session's `currentIndex`
unchanged. -/
theorem start_conflict_preserves_state (st : ServerState) (u rid : String)
    (now : ℕ) (nav0 : Navigation) (h : st.activeNavigations u = some nav0) :
    startNavigation st u rid now = (NavResponse.conflict, st) ∧
    (startNavigation st u rid now).2.activeNavigations u = some nav0 ∧
    ((startNavigation st u rid now).2.activeNavigations u).map Navigation.currentIndex
      = some nav0.currentIndex := by
  have hs : (st.activeNavigations u).isSome = true := by rw [h]; rfl
  refine ⟨?_, ?_, ?_⟩ <;> simp [startNavigation, hs, h]

/-- C2: one tick of an active scheduled session that has not reached the end
emits exactly a `location-update` to the vehicle channel and a
`live-location-update` to the fleet channel and then increments
`currentIndex` by exactly one — for both installed tick bodies and
regardless of whether the fleet-position store write fails — and the
published `progress = currentIndex / totalPoints * 100` is within `[0,100]`
and does not exceed the next tick's progress. -/
theorem tick_advances_index_and_publishes (st : ServerState) (u : String)
    (nav : Navigation) (k : TickKind) (ft : Bool) (now : ℕ)
    (hnav : st.activeNavigations u = some nav) (hint : nav.interval = some k)
    (_hact : nav.status = NavStatus.active)
    (hlt : nav.currentIndex < nav.movementPoints.length) :
    ((tickFire st u ft now).1.activeNavigations u).map Navigation.currentIndex
        = some (nav.currentIndex + 1) ∧
    (tickFire st u ft now).2 =
      [(Channel.vehicle u, Event.locationUpdate nav.routeId nav.routeName
          (nav.movementPoints[nav.currentIndex]?)
          ((nav.currentIndex : ℚ) / (nav.movementPoints.length : ℚ) * 100)
          nav.currentIndex nav.movementPoints.length
          (nav.movementPoints.length - nav.currentIndex)),
       (Channel.fleetManager, Event.liveLocationUpdate u nav.routeId nav.routeName
          (nav.movementPoints[nav.currentIndex]?)
          ((nav.currentIndex : ℚ) / (nav.movementPoints.length : ℚ) * 100) now)] ∧
    0 ≤ (nav.currentIndex : ℚ) / (nav.movementPoints.length : ℚ) * 100 ∧
    (nav.currentIndex : ℚ) / (nav.movementPoints.length : ℚ) * 100 ≤ 100 ∧
    (nav.currentIndex : ℚ) / (nav.movementPoints.length : ℚ) * 100 ≤
      ((nav.currentIndex : ℚ) + 1) / (nav.movementPoints.length : ℚ) * 100 := by
  have hlen0 : (0 : ℚ) < (nav.movementPoints.length : ℚ) := by
    have : 0 < nav.movementPoints.length := by omega
    exact_mod_cast this
  have hile : (nav.currentIndex : ℚ) ≤ (nav.movementPoints.length : ℚ) := by
    exact_mod_cast hlt.le
  have hstruct :
      ((tickFire st u ft now).1.activeNavigations u).map Navigation.currentIndex
          = some (nav.currentIndex + 1) ∧
      (tickFire st u ft now).2 =
        [(Channel.vehicle u, Event.locationUpdate nav.routeId nav.routeName
            (nav.movementPoints[nav.currentIndex]?)
            ((nav.currentIndex : ℚ) / (nav.movementPoints.length : ℚ) * 100)
            nav.currentIndex nav.movementPoints.length
            (nav.movementPoints.length - nav.currentIndex)),
         (Channel.fleetManager, Event.liveLocationUpdate u nav.routeId nav.routeName
            (nav.movementPoints[nav.currentIndex]?)
            ((nav.currentIndex : ℚ) / (nav.movementPoints.length : ℚ) * 100) now)] := by
    cases k with
    | fromStart =>
        have h := tickStartBody_advance st u nav ft now hnav hlt
        exact ⟨by simpa [tickFire, hnav, hint] using h.1,
               by simpa [tickFire, hnav, hint] using h.2.2⟩
    | fromResume =>
        have h := tickResumeBody_advance st u nav now hnav hlt
        exact ⟨by simpa [tickFire, hnav, hint] using h.1,
               by simpa [tickFire, hnav, hint] using h.2.2⟩
  refine ⟨hstruct.1, hstruct.2, ?_, ?_, ?_⟩
  · positivity
  · rw [div_mul_eq_mul_div, div_le_iff₀ hlen0]
    nlinarith
  · have h1 : (nav.currentIndex : ℚ) ≤ (nav.currentIndex : ℚ) + 1 := by linarith
    gcongr

/-- Witness for C1: starting a second navigation for vehicle `A` while
`navA` is active conflicts and changes nothing. -/
theorem start_conflict_preserves_state_witness :
    stA.activeNavigations "A" = some navA ∧
    startNavigation stA "A" "R2" 0 = (NavResponse.conflict, stA) ∧
    ((startNavigation stA "A" "R2" 0).2.activeNavigations "A").map Navigation.currentIndex
      = some navA.currentIndex := by
  have h : stA.activeNavigations "A" = some navA := rfl
  have happ := start_conflict_preserves_state stA "A" "R2" 0 navA h
  exact ⟨h, happ.1, happ.2.2⟩

/-- Witness for C2: one tick of `navA` with a failing fleet-store write
still advances `currentIndex` from 1 to 2 with in-range progress. -/
theorem tick_advances_index_and_publishes_witness :
    ((tickFire stA "A" true 0).1.activeNavigations "A").map Navigation.currentIndex
        = some (navA.currentIndex + 1) ∧
    0 ≤ (navA.currentIndex : ℚ) / (navA.movementPoints.length : ℚ) * 100 ∧
    (navA.currentIndex : ℚ) / (navA.movementPoints.length : ℚ) * 100 ≤ 100 := by
  have happ := tick_advances_index_and_publishes stA "A" navA TickKind.fromStart
    true 0 rfl rfl rfl (by decide)
  exact ⟨happ.1, happ.2.2.1, happ.2.2.2.1⟩

/-- C3 counterexample: on the same state `stA` (vehicle `A` mid-route, a
fleet document present, the store write succeeding), the start-installed
tick updates the vehicle's stored position while the resume-installed tick
leaves it untouched — the two per-tick steps are not equivalent. -/
theorem resumeTick_omits_fleet_store_write :
    (tickStartBody stA "A" false 0).1.fleets "A" ≠
      (tickResumeBody stA "A" 0).1.fleets "A" := by
  decide

/-- C3 amended: the per-tick step installed by `resume` agrees with the one
installed by `start` on the emitted events, the session-table transition,
the route-store transition, and the completion handling — but performs no
fleet-position store write (the resume tick leaves `fleets` unchanged in
every state, unlike the start tick). -/
theorem tickBodies_agree_except_fleet_write (st : ServerState) (u : String)
    (ft : Bool) (now : ℕ) :
    (tickStartBody st u ft now).2 = (tickResumeBody st u now).2 ∧
    (tickStartBody st u ft now).1.activeNavigations
      = (tickResumeBody st u now).1.activeNavigations ∧
    (tickStartBody st u ft now).1.routes = (tickResumeBody st u now).1.routes ∧
    (tickResumeBody st u now).1.fleets = st.fleets := by
  unfold tickStartBody tickResumeBody
  cases h : st.activeNavigations u with
  | none => exact ⟨rfl, rfl, rfl, rfl⟩
  | some nav =>
      by_cases hc : nav.movementPoints.length ≤ nav.currentIndex
      · simp [hc]
      · simp [hc]

/-- C4: once `currentIndex` equals the number of movement points, the next
tick (of either installed body) removes the session, leaves other vehicles'
sessions and the fleet store untouched, marks the route dead and inactive
in the store, publishes exactly the `navigation-completed` (vehicle
channel) and `route-completed` (fleet channel) events, and afterwards no
further tick for that vehicle fires. -/
theorem completion_tick_fires_once (st : ServerState) (u : String)
    (nav : Navigation) (k : TickKind) (ft : Bool) (now : ℕ)
    (hnav : st.activeNavigations u = some nav) (hint : nav.interval = some k)
    (heq : nav.currentIndex = nav.movementPoints.length) :
    (tickFire st u ft now).1.activeNavigations u = none ∧
    (∀ v, v ≠ u → (tickFire st u ft now).1.activeNavigations v
        = st.activeNavigations v) ∧
    (tickFire st u ft now).1.routes nav.routeId
      = (st.routes nav.routeId).map
          (fun d => { d with status := "dead", isActive := false }) ∧
    (tickFire st u ft now).1.fleets = st.fleets ∧
    (tickFire st u ft now).2 =
      [(Channel.vehicle u, Event.navigationCompleted nav.routeId nav.routeName
          ("Navigation completed for " ++ nav.routeName ++ "!")),
       (Channel.fleetManager, Event.routeCompleted u nav.routeId nav.routeName now)] ∧
    (∀ ft2 now2, tickFire (tickFire st u ft now).1 u ft2 now2
        = ((tickFire st u ft now).1, [])) := by
  have hle : nav.movementPoints.length ≤ nav.currentIndex := heq.ge
  have hdone : (tickFire st u ft now).1.activeNavigations u = none := by
    cases k with
    | fromStart => simp [tickFire, hnav, hint, tickStartBody, hle, setNav]
    | fromResume => simp [tickFire, hnav, hint, tickResumeBody, hle, setNav]
  refine ⟨hdone, ?_, ?_, ?_, ?_, ?_⟩
  · intro v hv
    cases k with
    | fromStart => simp [tickFire, hnav, hint, tickStartBody, hle, setNav, hv]
    | fromResume => simp [tickFire, hnav, hint, tickResumeBody, hle, setNav, hv]
  · cases k with
    | fromStart => simp [tickFire, hnav, hint, tickStartBody, hle, markRouteDead]
    | fromResume => simp [tickFire, hnav, hint, tickResumeBody, hle, markRouteDead]
  · cases k with
    | fromStart => simp [tickFire, hnav, hint, tickStartBody, hle]
    | fromResume => simp [tickFire, hnav, hint, tickResumeBody, hle]
  · cases k with
    | fromStart => simp [tickFire, hnav, hint, tickStartBody, hle]
    | fromResume => simp [tickFire, hnav, hint, tickResumeBody, hle]
  · intro ft2 now2
    set T := (tickFire st u ft now).1 with hT
    simp [tickFire, hdone]

/-- Witness for C4: the completion tick on `stDone` removes the session,
marks route `R1` dead, emits the two completion events, and a later tick
for `A` is a no-op. -/
theorem completion_tick_fires_once_witness :
    (tickFire stDone "A" false 0).1.activeNavigations "A" = none ∧
    (tickFire stDone "A" false 0).1.routes navDone.routeId
      = (stDone.routes navDone.routeId).map
          (fun d => { d with status := "dead", isActive := false }) ∧
    (tickFire stDone "A" false 0).2 =
      [(Channel.vehicle "A", Event.navigationCompleted navDone.routeId
          navDone.routeName ("Navigation completed for " ++ navDone.routeName ++ "!")),
       (Channel.fleetManager, Event.routeCompleted "A" navDone.routeId
          navDone.routeName 0)] ∧
    tickFire (tickFire stDone "A" false 0).1 "A" false 1
      = ((tickFire stDone "A" false 0).1, []) := by
  have happ := completion_tick_fires_once stDone "A" navDone TickKind.fromStart
    false 0 rfl rfl (by decide)
  exact ⟨happ.1, happ.2.2.1, happ.2.2.2.2.1, happ.2.2.2.2.2 false 1⟩

/-- C5: for an existing session, `pause` reports success and preserves
`currentIndex` and `currentPosition`; a second `pause` also succeeds and
leaves the paused state unchanged; `pause` followed by `resume` yields the
same session continuing from the stored `currentIndex` (status active,
schedule re-created), and the first tick afterwards publishes exactly the
movement point at that stored index before incrementing — no point skipped
or repeated; `resume` on a session that is not paused leaves the state
unchanged and still reports success. -/
theorem pause_resume_preserves_index (st : ServerState) (u : String)
    (nav : Navigation) (h : st.activeNavigations u = some nav) :
    (pauseNavigation st u).1 = NavResponse.pauseOk nav.routeId ∧
    ((pauseNavigation st u).2.activeNavigations u).map Navigation.currentIndex
      = some nav.currentIndex ∧
    ((pauseNavigation st u).2.activeNavigations u).map Navigation.currentPosition
      = some nav.currentPosition ∧
    pauseNavigation (pauseNavigation st u).2 u
      = (NavResponse.pauseOk nav.routeId, (pauseNavigation st u).2) ∧
    (nav.interval.isSome →
      (resumeNavigation (pauseNavigation st u).2 u).1 = NavResponse.resumeOk nav.routeId ∧
      (resumeNavigation (pauseNavigation st u).2 u).2.activeNavigations u =
        some { nav with status := NavStatus.active,
                        interval := some TickKind.fromResume }) ∧
    (nav.status ≠ NavStatus.paused →
      resumeNavigation st u = (NavResponse.resumeOk nav.routeId, st)) ∧
    (nav.interval.isSome → nav.currentIndex < nav.movementPoints.length →
      ∀ ft now,
        ((tickFire (resumeNavigation (pauseNavigation st u).2 u).2 u ft now).1.activeNavigations u).map
            Navigation.currentIndex = some (nav.currentIndex + 1) ∧
        ((tickFire (resumeNavigation (pauseNavigation st u).2 u).2 u ft now).2).head? =
          some (Channel.vehicle u, Event.locationUpdate nav.routeId nav.routeName
            (nav.movementPoints[nav.currentIndex]?)
            ((nav.currentIndex : ℚ) / (nav.movementPoints.length : ℚ) * 100)
            nav.currentIndex nav.movementPoints.length
            (nav.movementPoints.length - nav.currentIndex))) := by
  by_cases hi : nav.interval.isSome
  · have hp : pauseNavigation st u =
        (NavResponse.pauseOk nav.routeId,
         { st with activeNavigations := (setNav st.activeNavigations u (some { nav with interval := none, status := NavStatus.paused })) }) := by
      simp [pauseNavigation, h, hi]
    have hlook : (pauseNavigation st u).2.activeNavigations u
        = some { nav with interval := none, status := NavStatus.paused } := by
      rw [hp]
      simp [setNav]
    have hr : resumeNavigation (pauseNavigation st u).2 u =
        (NavResponse.resumeOk nav.routeId,
         { (pauseNavigation st u).2 with
             activeNavigations := (setNav (pauseNavigation st u).2.activeNavigations u (some { nav with status := NavStatus.active, interval := some TickKind.fromResume })) }) := by
      simp [resumeNavigation, hlook]
    have hrlook : (resumeNavigation (pauseNavigation st u).2 u).2.activeNavigations u
        = some { nav with status := NavStatus.active,
                          interval := some TickKind.fromResume } := by
      rw [hr]
      simp [setNav]
    refine ⟨by rw [hp], by rw [hlook]; rfl, by rw [hlook]; rfl, ?_, fun _ => ⟨by rw [hr], hrlook⟩,
      ?_, ?_⟩
    · rw [hp]
      simp [pauseNavigation, setNav]
    · intro hstat
      simp [resumeNavigation, h, hstat]
    · intro _ hlt ft now
      have hadv := tickResumeBody_advance
        (resumeNavigation (pauseNavigation st u).2 u).2 u
        { nav with status := NavStatus.active, interval := some TickKind.fromResume }
        now hrlook (by simpa using hlt)
      constructor
      · have := hadv.1
        simpa [tickFire, hrlook] using this
      · have := hadv.2.2
        simp only [tickFire, hrlook]
        rw [this]
        rfl
  · have hnone : nav.interval = none := Option.not_isSome_iff_eq_none.mp hi
    have hp : pauseNavigation st u = (NavResponse.pauseOk nav.routeId, st) := by
      simp [pauseNavigation, h, hnone]
    refine ⟨by rw [hp], by rw [hp, h]; rfl, by rw [hp, h]; rfl, by rw [hp, hp], ?_, ?_, ?_⟩
    · intro hsome
      rw [hnone] at hsome
      simp at hsome
    · intro hstat
      simp [resumeNavigation, h, hstat]
    · intro hsome
      rw [hnone] at hsome
      simp at hsome

/-- Witness for C5: pausing and resuming vehicle `A`'s session on `stA`
preserves `currentIndex = 1` and the next tick publishes point 1. -/
theorem pause_resume_preserves_index_witness :
    (pauseNavigation stA "A").1 = NavResponse.pauseOk navA.routeId ∧
    ((pauseNavigation stA "A").2.activeNavigations "A").map Navigation.currentIndex
      = some navA.currentIndex ∧
    pauseNavigation (pauseNavigation stA "A").2 "A"
      = (NavResponse.pauseOk navA.routeId, (pauseNavigation stA "A").2) ∧
    (resumeNavigation (pauseNavigation stA "A").2 "A").2.activeNavigations "A" =
      some { navA with status := NavStatus.active,
                       interval := some TickKind.fromResume } ∧
    ((tickFire (resumeNavigation (pauseNavigation stA "A").2 "A").2 "A" false 7).1.activeNavigations "A").map
        Navigation.currentIndex = some (navA.currentIndex + 1) := by
  have happ := pause_resume_preserves_index stA "A" navA rfl
  exact ⟨happ.1, happ.2.1, happ.2.2.2.1,
    (happ.2.2.2.2.1 (by decide)).2,
    (happ.2.2.2.2.2.2 (by decide) (by decide) false 7).1⟩

/-- C10: when a socket that joined as user `u` disconnects while `u` has an
active navigation, the schedule is cancelled and the session is deleted from
the table, but the route document's `status`/`isActive` fields are not
touched and no event is published; afterwards `stop` finds no session (so
the route can no longer be marked dead through it) and no tick fires. -/
theorem disconnect_destroys_session_silently (st : ServerState) (u : String)
    (nav : Navigation) (now : ℕ) (ft : Bool)
    (h : st.activeNavigations u = some nav) :
    (disconnectHandler st (some u)).1.activeNavigations u = none ∧
    (∀ v, v ≠ u → (disconnectHandler st (some u)).1.activeNavigations v
        = st.activeNavigations v) ∧
    (disconnectHandler st (some u)).1.routes = st.routes ∧
    (disconnectHandler st (some u)).1.fleets = st.fleets ∧
    (disconnectHandler st (some u)).2 = [] ∧
    stopNavigation (disconnectHandler st (some u)).1 u now
      = (NavResponse.noActiveNavigation, (disconnectHandler st (some u)).1, []) ∧
    tickFire (disconnectHandler st (some u)).1 u ft now
      = ((disconnectHandler st (some u)).1, []) := by
  have hd : disconnectHandler st (some u)
      = ({ st with activeNavigations := setNav st.activeNavigations u none }, []) := by
    simp [disconnectHandler, h]
  rw [hd]
  refine ⟨by simp [setNav], ?_, rfl, rfl, rfl, ?_, ?_⟩
  · intro v hv
    simp [setNav, hv]
  · simp [stopNavigation, setNav]
  · simp [tickFire, setNav]

/-- Witness for C10: disconnecting vehicle `A`'s socket on `stA` destroys
the session, leaves the route store untouched, emits nothing, and a
subsequent stop reports no active navigation. -/
theorem disconnect_destroys_session_silently_witness :
    (disconnectHandler stA (some "A")).1.activeNavigations "A" = none ∧
    (disconnectHandler stA (some "A")).1.routes = stA.routes ∧
    (disconnectHandler stA (some "A")).2 = [] ∧
    stopNavigation (disconnectHandler stA (some "A")).1 "A" 0
      = (NavResponse.noActiveNavigation, (disconnectHandler stA (some "A")).1, []) := by
  have happ := disconnect_destroys_session_silently stA "A" navA 0 false rfl
  exact ⟨happ.1, happ.2.2.1, happ.2.2.2.2.1, happ.2.2.2.2.2.1⟩

lemma round1_zero : round1 0 = 0 := by simp [round1]

lemma atan2_nonneg (y x : ℝ) (hy : 0 ≤ y) : 0 ≤ atan2 y x :=
  Complex.arg_nonneg_iff.2 hy

lemma calculateDistance_nonneg (p q : ℚ × ℚ) : 0 ≤ calculateDistance p q := by
  unfold calculateDistance
  have h := atan2_nonneg (Real.sqrt (Real.sin (deg2rad (q.2 - p.2) / 2) *
      Real.sin (deg2rad (q.2 - p.2) / 2) +
      Real.cos (deg2rad p.2) * Real.cos (deg2rad q.2) *
      Real.sin (deg2rad (q.1 - p.1) / 2) * Real.sin (deg2rad (q.1 - p.1) / 2)))
    (Real.sqrt (1 - (Real.sin (deg2rad (q.2 - p.2) / 2) *
      Real.sin (deg2rad (q.2 - p.2) / 2) +
      Real.cos (deg2rad p.2) * Real.cos (deg2rad q.2) *
      Real.sin (deg2rad (q.1 - p.1) / 2) * Real.sin (deg2rad (q.1 - p.1) / 2))))
    (Real.sqrt_nonneg _)
  positivity

lemma calculateDistance_self (p : ℚ × ℚ) : calculateDistance p p = 0 := by
  have h1 : (⟨1, 0⟩ : ℂ) = 1 := by
    apply Complex.ext <;> simp
  simp [calculateDistance, deg2rad, sub_self, atan2, h1, Complex.arg_one]

lemma nearestAux_spec (dist : (ℚ × ℚ) → (ℚ × ℚ) → ℝ) (s : ℚ × ℚ) :
    ∀ (l : List (ℚ × ℚ)) (i : ℕ) (m : ℝ) (bi : ℕ) (bp : ℚ × ℚ), m = dist s bp →
      ∃ m2 bi2 bp2, nearestAux dist s l i (some (m, bi, bp)) = some (m2, bi2, bp2) ∧
        m2 = dist s bp2 ∧ m2 ≤ m ∧ (∀ c ∈ l, m2 ≤ dist s c) ∧
        ((bi2 = bi ∧ bp2 = bp) ∨ ∃ k, k < l.length ∧ bi2 = i + k ∧ l[k]? = some bp2) := by
  intro l
  induction l with
  | nil =>
      intro i m bi bp hm
      exact ⟨m, bi, bp, rfl, hm, le_refl m, by simp, Or.inl ⟨rfl, rfl⟩⟩
  | cons c rest ih =>
      intro i m bi bp hm
      by_cases hlt : dist s c < m
      · obtain ⟨m2, bi2, bp2, heq, hm2, hle, hall, hdisj⟩ :=
          ih (i + 1) (dist s c) i c rfl
        refine ⟨m2, bi2, bp2, ?_, hm2, le_trans hle hlt.le, ?_, ?_⟩
        · simpa [nearestAux, hlt] using heq
        · intro x hx
          rcases List.mem_cons.mp hx with rfl | hx
          · exact hle
          · exact hall x hx
        · rcases hdisj with ⟨rfl, rfl⟩ | ⟨k, hk, hbi, hget⟩
          · exact Or.inr ⟨0, by simp, by omega, by simp⟩
          · exact Or.inr ⟨k + 1, by simpa using hk, by omega, by simpa using hget⟩
      · obtain ⟨m2, bi2, bp2, heq, hm2, hle, hall, hdisj⟩ :=
          ih (i + 1) m bi bp hm
        refine ⟨m2, bi2, bp2, ?_, hm2, hle, ?_, ?_⟩
        · simpa [nearestAux, hlt] using heq
        · intro x hx
          rcases List.mem_cons.mp hx with rfl | hx
          · exact le_trans hle (not_lt.mp hlt)
          · exact hall x hx
        · rcases hdisj with ⟨rfl, rfl⟩ | ⟨k, hk, hbi, hget⟩
          · exact Or.inl ⟨rfl, rfl⟩
          · exact Or.inr ⟨k + 1, by simpa using hk, by omega, by simpa using hget⟩

/-- Property of `findNearestPointOnRoute` on a nonempty route: the recorded index is in
range, the recorded coordinate is the route point at that index, the
recorded distance is the rounded distance to that point, and that distance
is minimal over all route coordinates. -/
lemma findNearestPointOnRoute_spec (s : ℚ × ℚ) (coords : List (ℚ × ℚ))
    (h : coords ≠ []) :
    (findNearestPointOnRoute s coords).index < coords.length ∧
    coords[(findNearestPointOnRoute s coords).index]?
      = some (findNearestPointOnRoute s coords).coordinates ∧
    (findNearestPointOnRoute s coords).distanceKm
      = round1 (calculateDistance s (findNearestPointOnRoute s coords).coordinates) ∧
    (∀ c ∈ coords, calculateDistance s (findNearestPointOnRoute s coords).coordinates
        ≤ calculateDistance s c) := by
  match coords, h with
  | c0 :: rest, _ =>
      obtain ⟨m2, bi2, bp2, heq, hm2, hle, hall, hdisj⟩ :=
        nearestAux_spec calculateDistance s rest 1 (calculateDistance s c0) 0 c0 rfl
      have hrun : nearestAux calculateDistance s (c0 :: rest) 0 none
          = some (m2, bi2, bp2) := by
        simpa [nearestAux] using heq
      have hres : findNearestPointOnRoute s (c0 :: rest) =
          { index := bi2, coordinates := bp2, distanceKm := round1 m2 } := by
        simp [findNearestPointOnRoute, hrun]
      rw [hres]
      refine ⟨?_, ?_, ?_, ?_⟩
      · rcases hdisj with ⟨rfl, rfl⟩ | ⟨k, hk, hbi, hget⟩
        · simp
        · simp only [List.length_cons]
          omega
      · rcases hdisj with ⟨rfl, rfl⟩ | ⟨k, hk, hbi, hget⟩
        · simp
        · have : bi2 = k + 1 := by omega
          rw [this]
          simpa using hget
      · rw [hm2]
      · intro c hc
        rcases List.mem_cons.mp hc with rfl | hc
        · exact hm2 ▸ (hm2 ▸ hle)
        · exact hm2 ▸ hall c hc

lemma mem_of_mem_mergeSort {α : Type} {l : List α} {le : α → α → Bool} {x : α}
    (h : x ∈ l.mergeSort le) : x ∈ l :=
  (List.mergeSort_perm l le).mem_iff.mp h

/-- Every match produced by the primary strategy carries the projection of
its own station onto the route, with `distanceFromRouteKm` equal to the
rounded minimal Haversine distance. -/
lemma findStationsWithinRouteBuffer_spec (store : StationStore)
    (coords : List (ℚ × ℚ)) (maxDistance : ℚ) (maxStations : ℕ)
    (m : RouteStationMatch) (hne : coords ≠ [])
    (hm : m ∈ findStationsWithinRouteBuffer store coords maxDistance maxStations) :
    m.routePosition.index < coords.length ∧
    coords[m.routePosition.index]? = some m.routePosition.coordinates ∧
    (∀ c ∈ coords, calculateDistance m.station.coordinates m.routePosition.coordinates
        ≤ calculateDistance m.station.coordinates c) ∧
    m.distanceFromRouteKm
      = round1 (calculateDistance m.station.coordinates m.routePosition.coordinates) := by
  simp only [findStationsWithinRouteBuffer] at hm
  split at hm
  · simp at hm
  · have hm2 := mem_of_mem_mergeSort (selectEvenlySpacedStations_mem _ _ _ hm)
    obtain ⟨station, _, hf⟩ := List.mem_filterMap.mp hm2
    split at hf
    · have hspec := findNearestPointOnRoute_spec station.coordinates coords hne
      injection hf with hf2
      rw [← hf2]
      exact ⟨hspec.1, hspec.2.1, hspec.2.2.2, hspec.2.2.1⟩
    · simp at hf

lemma foldl_preserve {α β : Type} (P : β → Prop) (f : List β → α → List β)
    (hf : ∀ acc a, (∀ x ∈ acc, P x) → ∀ x ∈ f acc a, P x) :
    ∀ (l : List α) (acc : List β), (∀ x ∈ acc, P x) → ∀ x ∈ l.foldl f acc, P x := by
  intro l
  induction l with
  | nil => exact fun acc h => h
  | cons a rest ih => exact fun acc h => ih (f acc a) (hf acc a h)

/-- Every match produced by the fallback strategy carries the projection of
its own station onto the route, but its `distanceFromRouteKm` is the
rounded store-reported sample-point distance, not the rounded minimal
Haversine distance. -/
lemma findStationsNearRoutePoints_spec (store : StationStore)
    (coords : List (ℚ × ℚ)) (maxDistance : ℚ) (maxStations : ℕ)
    (m : RouteStationMatch) (hne : coords ≠ [])
    (hm : m ∈ findStationsNearRoutePoints store coords maxDistance maxStations) :
    m.routePosition.index < coords.length ∧
    coords[m.routePosition.index]? = some m.routePosition.coordinates ∧
    (∀ c ∈ coords, calculateDistance m.station.coordinates m.routePosition.coordinates
        ≤ calculateDistance m.station.coordinates c) ∧
    m.routePosition.distanceKm
      = round1 (calculateDistance m.station.coordinates m.routePosition.coordinates) ∧
    m.distanceFromRouteKm = round1 ((m.station.distanceFromPoint : ℝ) / 1000) := by
  classical
  simp only [findStationsNearRoutePoints] at hm
  have hm2 := mem_of_mem_mergeSort (selectEvenlySpacedStations_mem _ _ _ hm)
  have hkey : m.routePosition = findNearestPointOnRoute m.station.coordinates coords ∧
      m.distanceFromRouteKm = round1 ((m.station.distanceFromPoint : ℝ) / 1000) := by
    refine foldl_preserve (fun m2 : RouteStationMatch =>
        m2.routePosition = findNearestPointOnRoute m2.station.coordinates coords ∧
        m2.distanceFromRouteKm = round1 ((m2.station.distanceFromPoint : ℝ) / 1000))
      _ ?_ _ [] (by simp) m hm2
    intro acc point hacc
    refine foldl_preserve _ _ ?_ _ acc hacc
    intro acc2 station hacc2 x hx
    split at hx
    · exact hacc2 x hx
    · rcases List.mem_append.mp hx with hx | hx
      · exact hacc2 x hx
      · rcases List.mem_singleton.mp hx with rfl
        exact ⟨rfl, rfl⟩
  obtain ⟨hrp, hdkm⟩ := hkey
  have hspec := findNearestPointOnRoute_spec m.station.coordinates coords hne
  rw [← hrp] at hspec
  exact ⟨hspec.1, hspec.2.1, hspec.2.2.2, hspec.2.2.1, hdkm⟩

/-- Scenario 4: a station at `(0,0)` projected onto `[[0,0],[10,0]]`. -/
lemma findNearestPointOnRoute_scenario :
    findNearestPointOnRoute ((0 : ℚ), (0 : ℚ))
        [((0 : ℚ), (0 : ℚ)), ((10 : ℚ), (0 : ℚ))]
      = { index := 0, coordinates := ((0 : ℚ), (0 : ℚ)), distanceKm := 0 } := by
  have hd0 : calculateDistance ((0 : ℚ), (0 : ℚ)) ((0 : ℚ), (0 : ℚ)) = 0 :=
    calculateDistance_self _
  have hnlt : ¬ (calculateDistance ((0 : ℚ), (0 : ℚ)) ((10 : ℚ), (0 : ℚ))
      < calculateDistance ((0 : ℚ), (0 : ℚ)) ((0 : ℚ), (0 : ℚ))) := by
    rw [hd0]
    exact not_lt.mpr (calculateDistance_nonneg _ _)
  simp only [findNearestPointOnRoute, nearestAux, if_neg hnlt]
  rw [hd0, round1_zero]

lemma primaryCE_eval : findStationsWithinRouteBuffer storeCE routeCE 5 4 = [] := by
  simp [findStationsWithinRouteBuffer, storeCE]

lemma fallbackCE_eval : findStationsNearRoutePoints storeCE routeCE 5 4 = [mCE] := by
  simp only [findStationsNearRoutePoints, storeCE, routeCE, mCE, sCE]
  norm_num [List.enum, List.enumFrom, List.filter, List.foldl, List.take,
    List.mergeSort_singleton, selectEvenlySpacedStations]

lemma primaryP_eval : findStationsWithinRouteBuffer storeP routeCE 5 4 = [mP] := by
  have hdk : (findNearestPointOnRoute sCE.coordinates routeCE).distanceKm = 0 := by
    rw [show sCE.coordinates = ((0 : ℚ), (0 : ℚ)) from rfl,
      show routeCE = [((0 : ℚ), (0 : ℚ)), ((10 : ℚ), (0 : ℚ))] from rfl,
      findNearestPointOnRoute_scenario]
  simp only [findStationsWithinRouteBuffer, storeP, mP]
  norm_num [List.take, List.filterMap, hdk, List.mergeSort_singleton,
    selectEvenlySpacedStations]

/-- C9 counterexample: on route `[[0,0],[10,0]]` with a station at `(0,0)`
that the store's `$geoNear` reports 3000 m from the sample point,
`findChargingStationsAlongRoute` (primary empty, so the fallback strategy
answers) returns a match whose `distanceFromRouteKm` is `3.0` — but the
minimum over all route coordinates of the Haversine distance is attained at
`(0,0)` with value `0`, which rounds to `0.0 ≠ 3.0`. -/
theorem fallbackMatch_distance_not_min_haversine :
    findChargingStationsAlongRoute storeCE routeCE 5 4 = [mCE] ∧
    mCE.distanceFromRouteKm = 3 ∧
    (∀ c ∈ routeCE, calculateDistance mCE.station.coordinates ((0 : ℚ), (0 : ℚ))
        ≤ calculateDistance mCE.station.coordinates c) ∧
    round1 (calculateDistance mCE.station.coordinates ((0 : ℚ), (0 : ℚ))) = 0 ∧
    (3 : ℝ) ≠ 0 := by
  have hcoords : mCE.station.coordinates = ((0 : ℚ), (0 : ℚ)) := rfl
  have hself : calculateDistance ((0 : ℚ), (0 : ℚ)) ((0 : ℚ), (0 : ℚ)) = 0 :=
    calculateDistance_self _
  refine ⟨?_, ?_, ?_, ?_, by norm_num⟩
  · simp only [findChargingStationsAlongRoute, primaryCE_eval, fallbackCE_eval]
    norm_num [routeCE]
  · show round1 ((sCE.distanceFromPoint : ℝ) / 1000) = 3
    rw [show ((sCE.distanceFromPoint : ℚ) : ℝ) / 1000 = 3 by norm_num [sCE]]
    simp [round1]
    norm_num
  · intro c hc
    rw [hcoords, hself]
    exact calculateDistance_nonneg _ _
  · rw [hcoords, hself, round1_zero]

/-- C9 amended: every `RouteStationMatch` returned by the primary
(bounding-box) strategy has `distanceFromRouteKm` equal to the minimum over
all route coordinates of the Haversine distance (Earth radius 6371 km)
rounded to 1 decimal place, with the recorded nearest index attaining that
minimum; matches returned by the fallback strategy still record the
minimum-attaining nearest index (and `routePosition.distanceKm` is the
rounded minimum), but their `distanceFromRouteKm` is instead the rounded
store-reported sample-point distance; a station at `(0,0)` against route
`[[0,0],[10,0]]` yields nearest index 0 and distance 0.0 km. -/
theorem routeStationMatch_projection :
    (∀ (store : StationStore) (coords : List (ℚ × ℚ)) (maxD : ℚ) (maxS : ℕ)
        (m : RouteStationMatch), coords ≠ [] →
        m ∈ findStationsWithinRouteBuffer store coords maxD maxS →
        m.routePosition.index < coords.length ∧
        coords[m.routePosition.index]? = some m.routePosition.coordinates ∧
        (∀ c ∈ coords, calculateDistance m.station.coordinates m.routePosition.coordinates
            ≤ calculateDistance m.station.coordinates c) ∧
        m.distanceFromRouteKm
          = round1 (calculateDistance m.station.coordinates m.routePosition.coordinates)) ∧
    (∀ (store : StationStore) (coords : List (ℚ × ℚ)) (maxD : ℚ) (maxS : ℕ)
        (m : RouteStationMatch), coords ≠ [] →
        m ∈ findStationsNearRoutePoints store coords maxD maxS →
        m.routePosition.index < coords.length ∧
        coords[m.routePosition.index]? = some m.routePosition.coordinates ∧
        (∀ c ∈ coords, calculateDistance m.station.coordinates m.routePosition.coordinates
            ≤ calculateDistance m.station.coordinates c) ∧
        m.routePosition.distanceKm
          = round1 (calculateDistance m.station.coordinates m.routePosition.coordinates) ∧
        m.distanceFromRouteKm = round1 ((m.station.distanceFromPoint : ℝ) / 1000)) ∧
    ((findNearestPointOnRoute ((0 : ℚ), (0 : ℚ))
        [((0 : ℚ), (0 : ℚ)), ((10 : ℚ), (0 : ℚ))]).index = 0 ∧
     (findNearestPointOnRoute ((0 : ℚ), (0 : ℚ))
        [((0 : ℚ), (0 : ℚ)), ((10 : ℚ), (0 : ℚ))]).distanceKm = 0) :=
  ⟨fun store coords maxD maxS m hne hm =>
      findStationsWithinRouteBuffer_spec store coords maxD maxS m hne hm,
   fun store coords maxD maxS m hne hm =>
      findStationsNearRoutePoints_spec store coords maxD maxS m hne hm,
   by rw [findNearestPointOnRoute_scenario], by rw [findNearestPointOnRoute_scenario]⟩

/-- Witness for C9's amended theorem: both strategy parts applied to
concrete stores producing the station `sCE` on `routeCE`. -/
theorem routeStationMatch_projection_witness :
    (mP.routePosition.index < routeCE.length ∧
     mP.distanceFromRouteKm
       = round1 (calculateDistance mP.station.coordinates mP.routePosition.coordinates)) ∧
    (mCE.routePosition.index < routeCE.length ∧
     mCE.distanceFromRouteKm = round1 ((mCE.station.distanceFromPoint : ℝ) / 1000)) := by
  have hA := routeStationMatch_projection.1 storeP routeCE 5 4 mP
    (by simp [routeCE]) (by rw [primaryP_eval]; exact List.mem_singleton.mpr rfl)
  have hB := routeStationMatch_projection.2.1 storeCE routeCE 5 4 mCE
    (by simp [routeCE]) (by rw [fallbackCE_eval]; exact List.mem_singleton.mpr rfl)
  exact ⟨⟨hA.1, hA.2.2.2⟩, ⟨hB.1, hB.2.2.2.2⟩⟩


end FleetMap

